import Mathlib

/-!
Verification of the intel-gpu-tools pipe-CRC capture subsystem.

This file is a shallow embedding, in Lean 4, of the pipe CRC library found
in the repository (the `igt_crc` / pipe-CRC portion of the IGT library:
`igt_assert_crc_equal`, `pipe_crc_init_from_string`, `read_crc`,
`read_one_crc`, `igt_pipe_crc_get_crcs`, `pipe_crc_new`,
`igt_pipe_crc_do_start`, `igt_pipe_crc_start`, `igt_pipe_crc_stop`,
`igt_pipe_crc_collect_crc`) together with the debugfs path resolver
(`igt_debugfs_mount`, `igt_debugfs_dir` in `lib/igt_debugfs.c`).

Modelling conventions:
- C `uint32_t` values are `Nat` reduced `% 2^32` at each store.
- File descriptors are `Int`; `-1` is the failure sentinel of `open`/`openat`.
- I/O is modelled by explicit environments: the result of each system call
  the code performs is a field of an environment structure, and the data
  channel is a trace `List (List Char)` where each entry is the byte string
  one `read(2)` call returns (`[]` models a zero-byte read, and also an
  `EAGAIN` failure, which `read_crc` folds into `bytes_read = 0`).
- `igt_assert`-style aborts are modelled by an `Option`/outcome value:
  `none` (or `.aborted`) means the process was terminated by an assertion.
- Loops whose exit depends on buffer contents are given explicit fuel;
  a `none` result from such a loop means the loop was still running after
  `fuel` iterations (the C code would be looping, possibly into undefined
  behaviour past its buffer).
-/

/-! ### Character and libc helpers used by the line parsers -/

/-- C `isspace`: the six standard whitespace characters. -/
def isSpaceChar (c : Char) : Bool :=
  c = ' ' || c = '\t' || c = '\n' || c = Char.ofNat 11 || c = Char.ofNat 12 || c = '\r'

/-- C `isdigit`. -/
def isDecDigit (c : Char) : Bool := '0' ≤ c && c ≤ '9'

/-- C `isxdigit`. -/
def isHexDigitChar (c : Char) : Bool :=
  isDecDigit c || ('a' ≤ c && c ≤ 'f') || ('A' ≤ c && c ≤ 'F')

/-- Numeric value of a decimal digit. -/
def decVal (c : Char) : Nat := c.toNat - '0'.toNat

/-- Numeric value of a hex digit. -/
def hexVal (c : Char) : Nat :=
  if isDecDigit c then c.toNat - '0'.toNat
  else if 'a' ≤ c && c ≤ 'f' then c.toNat - 'a'.toNat + 10
  else c.toNat - 'A'.toNat + 10

/-- Accumulate a digit string into a value. -/
def foldDigits (base : Nat) (val : Char → Nat) (ds : List Char) : Nat :=
  ds.foldl (fun a c => a * base + val c) 0

/-- `ULONG_MAX` on the 64-bit targets this test suite runs on. -/
def ULONG_MAX : Nat := 2 ^ 64 - 1

/-- `strtoul` saturates at `ULONG_MAX` on overflow. -/
def clampUlong (n : Nat) : Nat := min n ULONG_MAX

/-- Modulus for a store into a `uint32_t`. -/
def UINT32_MOD : Nat := 2 ^ 32

/-- `strtoul` with base 16 skips an optional `0x`/`0X` prefix when a hex
digit follows; otherwise the leading `0` (if any) is consumed as a digit,
giving the same numeric value. -/
def strip0x : List Char → List Char
  | '0' :: 'x' :: rest => if isHexDigitChar (rest.headD (Char.ofNat 0)) then rest else '0' :: 'x' :: rest
  | '0' :: 'X' :: rest => if isHexDigitChar (rest.headD (Char.ofNat 0)) then rest else '0' :: 'X' :: rest
  | s => s

/-- `strtoul(s, NULL, 16)`: skip whitespace, optional `0x` prefix, then the
longest hex-digit run, saturating at `ULONG_MAX`.  The optional sign accepted
by `strtoul` never occurs in CRC data lines and is not modelled. -/
def strtoul16 (s : List Char) : Nat :=
  let s1 := (s.dropWhile isSpaceChar)
  let s2 := strip0x s1
  clampUlong (foldDigits 16 hexVal (s2.takeWhile isHexDigitChar))

/-- One `sscanf` `%8u` conversion: skip whitespace, then read at most 8
decimal digits; a matching failure (no digit) yields `none`, a success
yields the value and the unconsumed input. -/
def scanU8 (s : List Char) : Option (Nat × List Char) :=
  let s1 := s.dropWhile isSpaceChar
  let ds := (s1.take 8).takeWhile isDecDigit
  if ds.isEmpty then none
  else some (clampUlong (foldDigits 10 decVal ds), s1.drop ds.length)

/-- One `sscanf` `%8x` conversion: skip whitespace, then read at most 8 hex
digits.  (The `0x` prefix `%x` would also accept never occurs in the
fixed-width legacy CRC lines and is not modelled.) -/
def scanX8 (s : List Char) : Option (Nat × List Char) :=
  let s1 := s.dropWhile isSpaceChar
  let ds := (s1.take 8).takeWhile isHexDigitChar
  if ds.isEmpty then none
  else some (clampUlong (foldDigits 16 hexVal ds), s1.drop ds.length)

/-! ### The CRC record (`igt_crc_t` in `lib/igt_crc.h`) -/

/-- `DRM_MAX_CRC_NR` -/
def DRM_MAX_CRC_NR : Nat := 10

/-- `MAX_CRC_ENTRIES` -/
def MAX_CRC_ENTRIES : Nat := 10

/-- `MAX_LINE_LEN = 10 + 11 * MAX_CRC_ENTRIES + 1` -/
def MAX_LINE_LEN : Nat := 10 + 11 * MAX_CRC_ENTRIES + 1

/-- `LEGACY_LINE_LEN = 6 * 8 + 5 + 1` -/
def LEGACY_LINE_LEN : Nat := 6 * 8 + 5 + 1

/-- `igt_crc_t`: frame number, validity flag, word count and the fixed
ten-element `uint32_t crc[DRM_MAX_CRC_NR]` array (kept as a length-10 list;
a store to an index `≥ 10` is out of bounds in C and is tracked separately
by the generic parser's write trace). -/
structure igt_crc_t where
  frame : Nat
  has_valid_frame : Bool
  n_words : Nat
  crc : List Nat
deriving Repr, DecidableEq

/-- A freshly `calloc`ed record (all fields zero). -/
def blankCrc : igt_crc_t :=
  { frame := 0, has_valid_frame := false, n_words := 0, crc := List.replicate 10 0 }

/-- Store `crc->crc[i] = w` (a `uint32_t` store).  `List.set` ignores an
out-of-range index; the C store would then be out of bounds, which the
generic word loop records in its write trace. -/
def setCrcWord (r : igt_crc_t) (i : Nat) (w : Nat) : igt_crc_t :=
  { r with crc := r.crc.set i (w % UINT32_MOD) }

/-- `igt_assert_crc_equal(a, b)`: runs `igt_assert_eq_u32(a->crc[i], b->crc[i])`
for every `i < a->n_words`; `true` means every assertion passed (the testcase
was not failed). -/
def igt_assert_crc_equal (a b : igt_crc_t) : Bool :=
  (List.range a.n_words).all (fun i => a.crc.getD i 0 == b.crc.getD i 0)

/-! ### The line parser (`pipe_crc_init_from_string`) -/

/-- The word-scanning part of the legacy `sscanf`: up to `k` more `%8x`
conversions, storing word `done`, `done+1`, …; returns the updated record and
the number of words successfully converted. -/
def legacyScanWords : igt_crc_t → List Char → Nat → Nat → igt_crc_t × Nat
  | r, _, 0, done => (r, done)
  | r, s, k + 1, done =>
    match scanX8 s with
    | none => (r, done)
    | some (w, rest) => legacyScanWords (setCrcWord r done w) rest k (done + 1)

/-- Legacy branch of `pipe_crc_init_from_string`: sets
`crc->has_valid_frame = true` and `crc->n_words = 5` unconditionally, then
runs `sscanf(line, "%8u %8x %8x %8x %8x %8x", &frame, &crc[0], …, &crc[4])`
(note: the frame field is a *decimal* `%8u` conversion).  Returns the updated
record and `n`, the number of successful conversions; the C function returns
`n == 6`. -/
def pipe_crc_init_legacy (r0 : igt_crc_t) (line : List Char) : igt_crc_t × Nat :=
  let r1 := { r0 with has_valid_frame := true, n_words := 5 }
  match scanU8 line with
  | none => (r1, 0)
  | some (f, rest) =>
    let r2 := { r1 with frame := f % UINT32_MOD }
    let (r3, wn) := legacyScanWords r2 rest 5 0
    (r3, 1 + wn)

/-- `*buf` at offset `pos` of the read buffer.  The buffer holds the line
followed by the NUL terminator the caller placed at `buf[bytes_read]`;
positions past the terminator (unspecified stack bytes in C) are modelled as
NUL as well. -/
def charAt (line : List Char) (pos : Nat) : Char := line.getD pos (Char.ofNat 0)

/-- The generic word loop
`for (i = 0; *buf != '\n'; i++, buf += 11) crc->crc[i] = strtoul(buf, NULL, 16);`
with explicit fuel.  Returns the updated record, the trace of stores
`(index, value)` performed, and `some i` when the loop exited at a newline
(`none` when the fuel ran out with the loop still going). -/
def genericWordLoop (line : List Char) :
    Nat → Nat → Nat → igt_crc_t → List (Nat × Nat) →
    igt_crc_t × List (Nat × Nat) × Option Nat
  | 0, _, _, r, ws => (r, ws, none)
  | fuel + 1, pos, i, r, ws =>
    if charAt line pos = '\n' then (r, ws, some i)
    else
      let w := strtoul16 (line.drop pos) % UINT32_MOD
      genericWordLoop line fuel (pos + 11) (i + 1) (setCrcWord r i w) (ws ++ [(i, w)])

/-- Generic branch of `pipe_crc_init_from_string`: a 10-character frame field
(`XXXXXXXXXX` sentinel, else `strtoul` base 16), then the word loop from
offset 10 in strides of 11.  Returns the store trace and `some` final record
(with `n_words` set to the loop counter) on loop exit, `none` when the loop
did not reach a newline within `fuel` iterations.  The C function itself
always returns `true` in this branch. -/
def pipe_crc_init_generic (r0 : igt_crc_t) (line : List Char) (fuel : Nat) :
    List (Nat × Nat) × Option igt_crc_t :=
  let r1 :=
    if line.take 10 = List.replicate 10 'X' then { r0 with has_valid_frame := false }
    else { r0 with has_valid_frame := true, frame := strtoul16 line % UINT32_MOD }
  match genericWordLoop line fuel 10 0 r1 [] with
  | (r2, ws, some i) => (ws, some { r2 with n_words := i })
  | (_, ws, none) => (ws, none)

/-- `pipe_crc_init_from_string`: dispatch on the session's ABI flag.  The
result is the updated record and the C return value; `none` models the
generic word loop failing to terminate within `fuel`. -/
def pipe_crc_init_from_string (is_legacy : Bool) (r0 : igt_crc_t) (line : List Char)
    (fuel : Nat) : Option (igt_crc_t × Bool) :=
  if is_legacy then
    let (r, n) := pipe_crc_init_legacy r0 line
    some (r, n == 6)
  else
    match pipe_crc_init_generic r0 line fuel with
    | (_, some r) => some (r, true)
    | (_, none) => none

/-! ### The read orchestrator (`read_crc`, `read_one_crc`, `igt_pipe_crc_get_crcs`) -/

/-- `read_crc`: one `read(2)` from the data channel followed by a decode.
`bytes` is what the read returned (`[]` for a zero-byte read, which also
covers the `EAGAIN` case the code folds into `bytes_read = 0`).  Returns the
C return value (`bytes_read`, or `-EINVAL = -22` on a legacy decode failure)
paired with the caller's record after the call; `none` models the generic
parser looping past its fuel. -/
def read_crc (is_legacy : Bool) (r0 : igt_crc_t) (bytes : List Char) (fuel : Nat) :
    Option (Int × igt_crc_t) :=
  if bytes.isEmpty then some (0, r0)
  else
    match pipe_crc_init_from_string is_legacy r0 bytes fuel with
    | some (r, true) => some ((bytes.length : Int), r)
    | some (r, false) => some (-22, r)
    | none => none

/-- `read_one_crc`: `while (read_crc(pipe_crc, out) == 0) usleep(1000);`.
Consumes trace entries while `read_crc` returns 0; returns the record and the
unconsumed trace at the first nonzero return.  `none` models the loop still
waiting when the trace runs out (or a stuck generic parse). -/
def read_one_crc (is_legacy : Bool) (r0 : igt_crc_t) :
    List (List Char) → Nat → Option (igt_crc_t × List (List Char))
  | [], _ => none
  | e :: rest, fuel =>
    match read_crc is_legacy r0 e fuel with
    | none => none
    | some (ret, r) =>
      if ret = 0 then read_one_crc is_legacy r rest fuel
      else some (r, rest)

/-- The do-while loop of `igt_pipe_crc_get_crcs`: each iteration reads into
the freshly `calloc`ed slot `crcs[n]`, skips a negative return without
advancing `n`, breaks on a zero return, and advances `n` on a positive
return; the loop condition `n < n_crcs` is checked only after the body. -/
def get_crcs_loop (is_legacy : Bool) :
    List (List Char) → Nat → Nat → List igt_crc_t → Nat →
    Option (Nat × List igt_crc_t)
  | [], _, _, _, _ => none
  | e :: rest, n, n_crcs, acc, fuel =>
    match read_crc is_legacy blankCrc e fuel with
    | none => none
    | some (ret, r) =>
      if ret < 0 then
        if n < n_crcs then get_crcs_loop is_legacy rest n n_crcs acc fuel
        else some (n, acc)
      else if ret = 0 then some (n, acc)
      else
        if n + 1 < n_crcs then get_crcs_loop is_legacy rest (n + 1) n_crcs (acc ++ [r]) fuel
        else some (n + 1, acc ++ [r])

/-- `igt_pipe_crc_get_crcs(pipe_crc, n_crcs, &out)`: returns the number of
records produced and the records themselves.  `none` models a trace that ran
out while the loop was still reading. -/
def igt_pipe_crc_get_crcs (is_legacy : Bool) (trace : List (List Char))
    (n_crcs : Nat) (fuel : Nat) : Option (Nat × List igt_crc_t) :=
  get_crcs_loop is_legacy trace 0 n_crcs [] fuel

/-! ### Session construction and the start/stop state machine -/

/-- `struct _igt_pipe_crc` -/
structure igt_pipe_crc_t where
  fd : Int
  dir : Int
  ctl_fd : Int
  crc_fd : Int
  flags : Nat
  is_legacy : Bool
  pipe : Nat
  source : Nat
deriving Repr, DecidableEq

/-- Results of the system calls `pipe_crc_new` performs.  Each `open` field
is the returned descriptor, `-1` on failure. -/
structure OpenEnv where
  debugfs_dir : Int
  open_generic_ctl : Int
  open_legacy_ctl : Int
  open_legacy_crc : Int

/-- `pipe_crc_new(fd, pipe, source, flags)`: resolves the debugfs directory
(assert on failure), tries the per-CRTC generic control file, falls back to
the legacy global control file (assert on failure) setting `is_legacy`, and
for legacy additionally opens the pipe-specific data file at construction
(assert on failure).  `none` models an assertion failure. -/
def pipe_crc_new (env : OpenEnv) (fd : Int) (pipe source flags : Nat) :
    Option igt_pipe_crc_t :=
  if env.debugfs_dir = -1 then none
  else if env.open_generic_ctl ≠ -1 then
    some { fd := fd, dir := env.debugfs_dir, ctl_fd := env.open_generic_ctl,
           crc_fd := -1, flags := flags, is_legacy := false, pipe := pipe,
           source := source }
  else if env.open_legacy_ctl = -1 then none
  else if env.open_legacy_crc = -1 then none
  else
    some { fd := fd, dir := env.debugfs_dir, ctl_fd := env.open_legacy_ctl,
           crc_fd := env.open_legacy_crc, flags := flags, is_legacy := true,
           pipe := pipe, source := source }

/-- `EINVAL` -/
def EINVAL : Nat := 22

/-- Results of the system calls `igt_pipe_crc_do_start` / `stop` perform:
whether the control-channel writes return the full length, and the outcome of
the generic `openat(dir, "crtc-<pipe>/crc/data", flags)` (`.ok fd` or
`.error errno`). -/
structure StartEnv where
  ctl_write_ok : Bool
  stop_write_ok : Bool
  open_crc_data : Except Nat Int

/-- Outcome of `igt_pipe_crc_do_start`. -/
inductive StartOutcome where
  | started
  | softFail
  | aborted
deriving Repr, DecidableEq

/-- `igt_pipe_crc_stop`: legacy writes `"pipe <name> none"` to the control
channel (assert on short write); generic closes the data descriptor and marks
it `-1`.  `none` models the assertion failing. -/
def igt_pipe_crc_stop (s : igt_pipe_crc_t) (env : StartEnv) : Option igt_pipe_crc_t :=
  if s.is_legacy then
    if env.stop_write_ok then some s else none
  else
    some { s with crc_fd := -1 }

/-- `igt_pipe_crc_do_start`: stop first, write the source-selection command
(assert on short write), and for generic ABI open the per-pipe data file:
an `EINVAL` failure returns `false` (`.softFail`), any other open failure
trips `igt_assert_eq(err, 0)` (`.aborted`). -/
def igt_pipe_crc_do_start (s : igt_pipe_crc_t) (env : StartEnv) :
    StartOutcome × igt_pipe_crc_t :=
  match igt_pipe_crc_stop s env with
  | none => (.aborted, s)
  | some s1 =>
    if env.ctl_write_ok = false then (.aborted, s1)
    else if s1.is_legacy then (.started, s1)
    else
      match env.open_crc_data with
      | .ok f => (.started, { s1 with crc_fd := f })
      | .error e =>
        if e = EINVAL then (.softFail, { s1 with crc_fd := -1 })
        else (.aborted, { s1 with crc_fd := -1 })

/-- `igt_pipe_crc_start`: asserts `igt_pipe_crc_do_start` succeeded, then for
legacy ABI reads and throws away two records (the documented warm-up
discard).  Returns the started session and the unconsumed data trace;
`none` models an assertion failure or an exhausted trace. -/
def igt_pipe_crc_start (s : igt_pipe_crc_t) (env : StartEnv)
    (trace : List (List Char)) (fuel : Nat) :
    Option (igt_pipe_crc_t × List (List Char)) :=
  match igt_pipe_crc_do_start s env with
  | (.started, s1) =>
    if s1.is_legacy then
      match read_one_crc true blankCrc trace fuel with
      | none => none
      | some (r1, t1) =>
        match read_one_crc true r1 t1 fuel with
        | none => none
        | some (_, t2) => some (s1, t2)
    else some (s1, trace)
  | (_, _) => none

/-- `igt_pipe_crc_collect_crc`: start, one `read_one_crc` into the caller's
record, stop.  (`crc_sanity_checks` only emits warnings and is not part of
the state.)  Returns the visible record, the session after stop, and the
unconsumed trace. -/
def igt_pipe_crc_collect_crc (s : igt_pipe_crc_t) (env : StartEnv)
    (trace : List (List Char)) (fuel : Nat) (out0 : igt_crc_t) :
    Option (igt_crc_t × igt_pipe_crc_t × List (List Char)) :=
  match igt_pipe_crc_start s env trace fuel with
  | none => none
  | some (s1, t1) =>
    match read_one_crc s1.is_legacy out0 t1 fuel with
    | none => none
    | some (r, t2) =>
      match igt_pipe_crc_stop s1 env with
      | none => none
      | some s2 => some (r, s2, t2)

/-! ### The debugfs path resolver (`lib/igt_debugfs.c`) -/

/-- Results of the system calls `igt_debugfs_mount` / `igt_debugfs_dir`
perform.  `name_open i` is the combined outcome of opening and reading
`<root>/dri/<i>/name`: `none` when the open fails, `some contents`
otherwise. -/
structure DebugfsEnv where
  fstat_ok : Bool
  is_chr : Bool
  has_debug_dri : Bool
  has_sys_debug_dri : Bool
  mountpoint_or_mount_ok : Bool
  minor : Nat
  name_stat_ok : Bool
  name_open : Nat → Option (List Char)
  final_open : Int

/-- `igt_debugfs_mount`: tries `/debug/dri` (`some true`), then
`/sys/kernel/debug/dri` (`some false`), else asserts that
`/sys/kernel/debug` is a mountpoint or that mounting debugfs there succeeds
(`none` models that assertion failing, i.e. debugfs cannot be located or
mounted). -/
def igt_debugfs_mount (env : DebugfsEnv) : Option Bool :=
  if env.has_debug_dri then some true
  else if env.has_sys_debug_dri then some false
  else if env.mountpoint_or_mount_ok then some false
  else none

/-- Outcome of the `for (idx = 0; idx < 16; idx++)` name-matching scan:
either a break at a matching index, or a `-1` return (an `open` failed
mid-scan, or the loop ran to `idx == 16`). -/
inductive ScanOut where
  | found (idx : Nat)
  | failed
deriving Repr, DecidableEq

/-- The name-matching scan of `igt_debugfs_dir`, iterating `k` more indices
starting at `idx`. -/
def scan_names (nameOpen : Nat → Option (List Char)) (nm : List Char) :
    Nat → Nat → ScanOut
  | _, 0 => .failed
  | idx, k + 1 =>
    match nameOpen idx with
    | none => .failed
    | some cmp => if cmp = nm then .found idx else scan_names nameOpen nm (idx + 1) k

/-- `igt_debugfs_dir(device)`: `some (-1)` is the sentinel return, `some fd`
a success, `none` an abort inside `igt_debugfs_mount`'s assertion. -/
def igt_debugfs_dir (env : DebugfsEnv) : Option Int :=
  if env.fstat_ok = false then some (-1)
  else if env.is_chr = false then some (-1)
  else
    match igt_debugfs_mount env with
    | none => none
    | some _ =>
      if env.name_stat_ok = false then some (-1)
      else
        let idxRes : Option Nat :=
          if 64 ≤ env.minor then
            match env.name_open env.minor with
            | none => none
            | some nm =>
              match scan_names env.name_open nm 0 16 with
              | .found i => some i
              | .failed => none
          else some env.minor
        match idxRes with
        | none => some (-1)
        | some _ => some env.final_open

/-! ### Helper lemmas about the legacy parser -/

/-- `legacyScanWords` only stores CRC words: frame, validity flag and word
count pass through, and the conversion count does not depend on the record. -/
theorem legacyScanWords_fields (k : Nat) :
    ∀ (r : igt_crc_t) (s : List Char) (d : Nat),
      (legacyScanWords r s k d).1.has_valid_frame = r.has_valid_frame ∧
      (legacyScanWords r s k d).1.n_words = r.n_words ∧
      (legacyScanWords r s k d).1.frame = r.frame := by
  induction k with
  | zero => intro r s d; simp [legacyScanWords]
  | succ k ih =>
    intro r s d
    simp only [legacyScanWords]
    cases h : scanX8 s with
    | none => simp
    | some p =>
      obtain ⟨w, rest⟩ := p
      simpa [setCrcWord] using ih (setCrcWord r d w) rest (d + 1)

/-- The number of `%8x` conversions `legacyScanWords` performs depends only
on the input text, not on the record being filled in. -/
theorem legacyScanWords_count (k : Nat) :
    ∀ (r r' : igt_crc_t) (s : List Char) (d : Nat),
      (legacyScanWords r s k d).2 = (legacyScanWords r' s k d).2 := by
  induction k with
  | zero => intro r r' s d; simp [legacyScanWords]
  | succ k ih =>
    intro r r' s d
    simp only [legacyScanWords]
    cases h : scanX8 s with
    | none => simp
    | some p =>
      obtain ⟨w, rest⟩ := p
      exact ih (setCrcWord r d w) (setCrcWord r' d w) rest (d + 1)

/-- The legacy `sscanf` conversion count depends only on the line. -/
theorem pipe_crc_init_legacy_count (r0 r0' : igt_crc_t) (line : List Char) :
    (pipe_crc_init_legacy r0 line).2 = (pipe_crc_init_legacy r0' line).2 := by
  simp only [pipe_crc_init_legacy]
  cases h : scanU8 line with
  | none => rfl
  | some p =>
    obtain ⟨f, rest⟩ := p
    simpa using legacyScanWords_count 5 _ _ rest 0

/-! ### Claim C1 -/

/-- First record of the C1 counterexample: two reported words. -/
def crcA : igt_crc_t :=
  { frame := 1, has_valid_frame := true, n_words := 2,
    crc := [7, 2, 0, 0, 0, 0, 0, 0, 0, 0] }

/-- Second record of the C1 counterexample: one reported word, its stored
array differing from `crcA` only at index 1, beyond its own word count. -/
def crcB : igt_crc_t :=
  { frame := 1, has_valid_frame := true, n_words := 1,
    crc := [7, 3, 0, 0, 0, 0, 0, 0, 0, 0] }

/-- C1 counterexample: `crcA` and `crcB` agree on every word index below
`min(a.n_words, b.n_words) = 1`, so the claimed comparison bound would make
`igt_assert_crc_equal` succeed; the code instead iterates up to
`a->n_words = 2`, reads `b->crc[1]` beyond `b`'s reported word count, and
fails the assertion. -/
theorem C1_counterexample :
    min crcA.n_words crcB.n_words = 1 ∧
    crcA.crc.getD 0 0 = crcB.crc.getD 0 0 ∧
    igt_assert_crc_equal crcA crcB = false := by decide

/-- C1 (amended): `igt_assert_crc_equal` compares word sequences
element-by-element up to the *first* record's reported word count
`a.n_words` (reading both records at every index below it, including
indices beyond `b.n_words`), and it succeeds exactly when all compared
words are equal. -/
theorem C1_thm (a b : igt_crc_t) :
    igt_assert_crc_equal a b = true ↔ ∀ i < a.n_words, a.crc.getD i 0 = b.crc.getD i 0 := by
  simp [igt_assert_crc_equal]

/-- C1 witness: the amended characterisation evaluated on `crcA`, `crcB`. -/
theorem C1_witness :
    ¬ (∀ i < crcA.n_words, crcA.crc.getD i 0 = crcB.crc.getD i 0) :=
  fun h => absurd ((C1_thm crcA crcB).mpr h) (by decide)

/-! ### Shared facts about the legacy decoder -/

/-- The legacy decoder sets `has_valid_frame = true` and `n_words = 5`
before the `sscanf`, and on a successful first conversion stores the decimal
frame value. -/
theorem pipe_crc_init_legacy_fields (r0 : igt_crc_t) (line : List Char) :
    (pipe_crc_init_legacy r0 line).1.has_valid_frame = true ∧
    (pipe_crc_init_legacy r0 line).1.n_words = 5 ∧
    (∀ f rest, scanU8 line = some (f, rest) →
      (pipe_crc_init_legacy r0 line).1.frame = f % UINT32_MOD) := by
  simp only [pipe_crc_init_legacy]
  cases h : scanU8 line with
  | none => simp
  | some p =>
    obtain ⟨f, rest⟩ := p
    have hf := legacyScanWords_fields 5
      { r0 with has_valid_frame := true, n_words := 5, frame := f % UINT32_MOD } rest 0
    refine ⟨by simpa using hf.1, by simpa using hf.2.1, ?_⟩
    intro f' rest' h'
    obtain ⟨rfl, rfl⟩ : f = f' ∧ rest = rest' := by simpa using h'
    simpa using hf.2.2

/-! ### Claim C10 -/

/-- C10: the legacy decoder sets `has_valid_frame = true` and `n_words = 5`
unconditionally, before attempting the 6-field `sscanf`; hence even when the
parse fails (fewer than 6 conversions) the caller's record has been
modified — in particular a record that entered with `has_valid_frame =
false` or `n_words ≠ 5` never comes back unchanged. -/
theorem C10_thm (r0 : igt_crc_t) (line : List Char) :
    (pipe_crc_init_legacy r0 line).1.has_valid_frame = true ∧
    (pipe_crc_init_legacy r0 line).1.n_words = 5 ∧
    (r0.has_valid_frame = false ∨ r0.n_words ≠ 5 →
      (pipe_crc_init_legacy r0 line).1 ≠ r0) := by
  have hmain := pipe_crc_init_legacy_fields r0 line
  refine ⟨hmain.1, hmain.2.1, ?_⟩
  rintro (hvf | hnw) heq
  · have h1 := hmain.1; rw [heq, hvf] at h1; exact Bool.false_ne_true h1
  · have h2 := hmain.2.1; rw [heq] at h2; exact hnw h2

/-- C10 witness: a failing line (`"bonkers\n"` yields 0 conversions) still
flips the validity flag and word count of a blank record. -/
theorem C10_witness :
    (pipe_crc_init_legacy blankCrc ("bonkers\n".toList)).1 ≠ blankCrc :=
  (C10_thm blankCrc ("bonkers\n".toList)).2.2 (Or.inl (by decide))

/-! ### Claim C4 -/

/-- C4 counterexample line: all six fields are digit strings, so the parse
succeeds, but the first field is converted by `%8u` as *decimal*. -/
def cl4 : List Char :=
  "00000010 00000001 00000002 00000003 00000004 00000005\n".toList

/-- C4 counterexample: the legacy parse of `cl4` succeeds (6 conversions)
with frame = 10, the decimal reading of `"00000010"`; the claimed
hexadecimal reading would be 0x10 = 16. -/
theorem C4_counterexample :
    (pipe_crc_init_legacy blankCrc cl4).2 = 6 ∧
    (pipe_crc_init_legacy blankCrc cl4).1.frame = 10 ∧
    (0x10 : Nat) ≠ 10 := by decide

/-- C4 (amended): the legacy decoder follows
`sscanf(line, "%8u %8x %8x %8x %8x %8x")` — six whitespace-separated fields
of at most 8 characters, the frame number parsed as *decimal* and the five
CRC words as hexadecimal; validity = true and word count = 5 are set (in
fact unconditionally), on success the frame is the decimal value of the
first field, and a line not matching the 6-field pattern makes the caller's
`read_crc` return `-EINVAL`. -/
theorem C4_thm (r0 : igt_crc_t) (line : List Char) (fuel : Nat) :
    ((pipe_crc_init_legacy r0 line).1.has_valid_frame = true ∧
     (pipe_crc_init_legacy r0 line).1.n_words = 5) ∧
    (∀ f rest, scanU8 line = some (f, rest) →
      (pipe_crc_init_legacy r0 line).1.frame = f % UINT32_MOD) ∧
    ((pipe_crc_init_legacy r0 line).2 ≠ 6 → line ≠ [] →
      read_crc true r0 line fuel = some (-22, (pipe_crc_init_legacy r0 line).1)) := by
  have hmain := pipe_crc_init_legacy_fields r0 line
  refine ⟨⟨hmain.1, hmain.2.1⟩, hmain.2.2, ?_⟩
  intro hn hline
  have hne : line.isEmpty = false := by
    cases line with
    | nil => exact absurd rfl hline
    | cons a l => rfl
  have hbeq : ((pipe_crc_init_legacy r0 line).2 == 6) = false := by
    simpa using hn
  simp only [read_crc, hne, Bool.false_eq_true, if_false, pipe_crc_init_from_string,
    if_true, hbeq]

/-- C4 witness: the spec's own example line
`"00000001 0000abcd 00000000 00000000 00000000 00000000"` parses with six
conversions and frame = 1, and a non-matching line is reported as `-EINVAL`
by `read_crc`. -/
theorem C4_witness :
    read_crc true blankCrc ("junk line\n".toList) 5 =
      some (-22, (pipe_crc_init_legacy blankCrc ("junk line\n".toList)).1) :=
  (C4_thm blankCrc ("junk line\n".toList) 5).2.2 (by decide) (by decide)

/-! ### Claim C3 -/

/-- A line the legacy decoder rejects (no digits, 0 conversions). -/
def badLegacyLine : List Char := "bonkers\n".toList

/-- C3 counterexample: on a trace whose first read yields a line that fails
to decode, `read_crc` returns `-EINVAL ≠ 0`, so the retry loop of
`read_one_crc` exits at once and the record handed back is the one the
failed decode produced — refuting the claim that `readOne` returns only
after a successful decode. -/
theorem C3_counterexample :
    read_crc true blankCrc badLegacyLine 5 =
      some (-22, (pipe_crc_init_legacy blankCrc badLegacyLine).1) ∧
    (pipe_crc_init_legacy blankCrc badLegacyLine).2 ≠ 6 ∧
    read_one_crc true blankCrc [badLegacyLine] 5 =
      some ((pipe_crc_init_legacy blankCrc badLegacyLine).1, []) := by decide

/-- C3 (amended): `read_one_crc` retries (with the 1 ms sleep) only while
`read_crc` returns 0, i.e. while a read yields zero bytes; it returns at the
first nonzero result, whether that is a successfully decoded line (positive
return) or a decode failure (`-EINVAL`) — so it can return a record that
failed to decode. -/
theorem C3_thm (leg : Bool) (r0 : igt_crc_t) (e : List Char)
    (rest : List (List Char)) (fuel : Nat) (ret : Int) (r : igt_crc_t)
    (h : read_crc leg r0 e fuel = some (ret, r)) :
    (ret = 0 → read_one_crc leg r0 (e :: rest) fuel = read_one_crc leg r rest fuel) ∧
    (ret ≠ 0 → read_one_crc leg r0 (e :: rest) fuel = some (r, rest)) := by
  constructor
  · intro h0
    simp [read_one_crc, h, h0]
  · intro h0
    simp only [read_one_crc, h]
    rw [if_neg h0]

/-- C3 witness: the two behaviours at concrete inputs — a zero-byte read
makes the loop continue, a decode failure makes it return. -/
theorem C3_witness :
    read_one_crc true blankCrc ([] :: [badLegacyLine]) 5 =
      read_one_crc true blankCrc [badLegacyLine] 5 ∧
    read_one_crc true blankCrc (badLegacyLine :: []) 5 =
      some ((pipe_crc_init_legacy blankCrc badLegacyLine).1, []) :=
  ⟨(C3_thm true blankCrc [] [badLegacyLine] 5 0 blankCrc (by decide)).1 rfl,
   (C3_thm true blankCrc badLegacyLine [] 5 (-22)
      (pipe_crc_init_legacy blankCrc badLegacyLine).1 (by decide)).2 (by decide)⟩

/-! ### Claim C5 -/

/-- The spec's example generic line: `"00000005 deadbeef cafebabe \n"`.
Its frame field is only 9 characters wide (8 hex digits and a space), not
the 10 the decoder assumes. -/
def cl5 : List Char := "00000005 deadbeef cafebabe \n".toList

/-- The record the claim says `cl5` decodes to. -/
def c5claimed : igt_crc_t :=
  { frame := 5, has_valid_frame := true, n_words := 2,
    crc := [0xdeadbeef, 0xcafebabe, 0, 0, 0, 0, 0, 0, 0, 0] }

/-- C5 counterexample: the decoder reads the word fields at fixed offsets
10, 21, … of the line, so on `cl5` the first two stores are
`crc[0] = strtoul("eadbeef cafebabe \n") = 0xeadbeef` and
`crc[1] = strtoul("ebabe \n") = 0xebabe` (not 0xdeadbeef / 0xcafebabe), the
third probe at offset 32 is already past the newline, and the decode does
not produce the claimed record. -/
theorem C5_counterexample :
    (pipe_crc_init_generic blankCrc cl5 30).1.take 2 =
      [(0, 0xeadbeef), (1, 0xebabe)] ∧
    strtoul16 (cl5.drop 10) = 0xeadbeef ∧
    (pipe_crc_init_generic blankCrc cl5 30).2 ≠ some c5claimed := by decide

/-- C5 (amended): with the 10-character frame field and 11-character word
fields the decoder actually assumes (the kernel writes `"0x%08x"` then
`" 0x%08x"` per word), the line `"0x00000005 0xdeadbeef 0xcafebabe\n"`
decodes to frame = 5, validity = true, word count = 2 and CRC words
`[0xdeadbeef, 0xcafebabe]`. -/
theorem C5_thm :
    (pipe_crc_init_generic blankCrc ("0x00000005 0xdeadbeef 0xcafebabe\n".toList) 30).2 =
      some c5claimed := by decide

/-! ### Claim C6 -/

/-- `read_crc` returns 0 exactly for a zero-byte read. -/
theorem read_crc_zero (leg : Bool) (r0 : igt_crc_t) (e : List Char) (fuel : Nat)
    (r : igt_crc_t) (h : read_crc leg r0 e fuel = some (0, r)) : e = [] := by
  cases e with
  | nil => rfl
  | cons a l =>
    exfalso
    simp only [read_crc, List.isEmpty_cons, if_false] at h
    cases hp : pipe_crc_init_from_string leg r0 (a :: l) fuel with
    | none => rw [hp] at h; cases h
    | some p =>
      obtain ⟨rr, b⟩ := p
      rw [hp] at h
      cases b with
      | false => simp at h
      | true =>
        have hlen : ((a :: l).length : Int) = 0 := by
          have h2 := (Option.some_inj.mp h)
          exact (Prod.mk.injEq .. ▸ h2).1
        simp only [List.length_cons] at hlen
        omega

/-- Invariant proof for the do-while loop of `igt_pipe_crc_get_crcs`: entered
with `n < n_crcs` records so far, a normally terminating loop produces at
most `n_crcs` records, as many records as its reported count, and stops short
of `n_crcs` only by breaking on a zero-byte read. -/
theorem get_crcs_loop_spec (leg : Bool) (fuel N : Nat) :
    ∀ (trace : List (List Char)) (n : Nat) (acc : List igt_crc_t),
      acc.length = n → n < N →
      ∀ m recs, get_crcs_loop leg trace n N acc fuel = some (m, recs) →
        m ≤ N ∧ recs.length = m ∧ (m < N → [] ∈ trace) := by
  intro trace
  induction trace with
  | nil => intro n acc _ _ m recs h; cases h
  | cons e rest ih =>
    intro n acc hlen hn m recs h
    cases hr : read_crc leg blankCrc e fuel with
    | none => simp only [get_crcs_loop, hr] at h; cases h
    | some p =>
      obtain ⟨ret, r⟩ := p
      simp only [get_crcs_loop, hr] at h
      by_cases hneg : ret < 0
      · rw [if_pos hneg, if_pos hn] at h
        obtain ⟨h1, h2, h3⟩ := ih n acc hlen hn m recs h
        exact ⟨h1, h2, fun hm => List.mem_cons_of_mem _ (h3 hm)⟩
      · rw [if_neg hneg] at h
        by_cases h0 : ret = 0
        · rw [if_pos h0] at h
          obtain ⟨rfl, rfl⟩ : n = m ∧ acc = recs := by simpa using h
          have he : e = [] := read_crc_zero leg blankCrc e fuel r (h0 ▸ hr)
          exact ⟨le_of_lt hn, hlen, fun _ => by simp [he]⟩
        · rw [if_neg h0] at h
          by_cases hlt : n + 1 < N
          · rw [if_pos hlt] at h
            obtain ⟨h1, h2, h3⟩ := ih (n + 1) (acc ++ [r]) (by simp [hlen]) hlt m recs h
            exact ⟨h1, h2, fun hm => List.mem_cons_of_mem _ (h3 hm)⟩
          · rw [if_neg hlt] at h
            obtain ⟨rfl, rfl⟩ : n + 1 = m ∧ acc ++ [r] = recs := by simpa using h
            exact ⟨by omega, by simp [hlen], fun hm => absurd hm (by omega)⟩

/-- A legacy line that decodes successfully (6 conversions). -/
def goodLegacyLine : List Char :=
  "00000001 00000002 00000003 00000004 00000005 00000006\n".toList

/-- C6 counterexample: with `maxCount = N = 0` the do-while body still runs
once, so a successful first read produces one record — more than `N`. -/
theorem C6_counterexample :
    igt_pipe_crc_get_crcs true [goodLegacyLine] 0 5 =
      some (1, [(pipe_crc_init_legacy blankCrc goodLegacyLine).1]) ∧
    ¬ (1 ≤ 0) := by decide

/-- C6 (amended): for every `maxCount = N ≥ 1` (the loop is a do-while, so
`N = 0` still performs one read and can return one record), `readMany`
returns at most `N` records, exactly as many records as its reported count,
returns fewer than `N` only when some read in the consumed trace yielded
zero bytes, and a read whose decode fails (negative `read_crc` return) is
skipped without consuming one of the `N` slots. -/
theorem C6_thm (leg : Bool) (trace : List (List Char)) (N fuel : Nat)
    (hN : 1 ≤ N) :
    (∀ m recs, igt_pipe_crc_get_crcs leg trace N fuel = some (m, recs) →
      m ≤ N ∧ recs.length = m ∧ (m < N → [] ∈ trace)) ∧
    (∀ e rest ret r, trace = e :: rest →
      read_crc leg blankCrc e fuel = some (ret, r) → ret < 0 →
      igt_pipe_crc_get_crcs leg trace N fuel = igt_pipe_crc_get_crcs leg rest N fuel) := by
  constructor
  · intro m recs h
    exact get_crcs_loop_spec leg fuel N trace 0 [] rfl (by omega) m recs h
  · intro e rest ret r htr hr hneg
    subst htr
    simp only [igt_pipe_crc_get_crcs, get_crcs_loop, hr]
    rw [if_pos hneg, if_pos (by omega : 0 < N)]

/-- C6 witness: a two-entry trace (one good line, then a zero-byte read)
with `N = 2` stops at 1 record, and indeed contains a zero-byte read. -/
theorem C6_witness :
    (1 : Nat) ≤ 2 ∧ ([] ∈ [goodLegacyLine, ([] : List Char)]) :=
  ⟨by decide,
   ((C6_thm true [goodLegacyLine, []] 2 5 (by decide)).1 1
      [(pipe_crc_init_legacy blankCrc goodLegacyLine).1] (by decide)).2.2 (by decide)⟩

/-! ### Claim C7 -/

/-- Termination shape of the generic word loop: if the first newline among
the probed offsets `pos, pos+11, …` is at `pos + 11*k` and the fuel covers
`k + 1` iterations, the loop exits with counter `i + k` having stored
exactly the words of indices `i, …, i + k - 1`. -/
theorem genericWordLoop_term (line : List Char) :
    ∀ (k fuel pos i : Nat) (r : igt_crc_t) (ws : List (Nat × Nat)),
      (∀ j < k, charAt line (pos + 11 * j) ≠ '\n') →
      charAt line (pos + 11 * k) = '\n' →
      k + 1 ≤ fuel →
      ∃ r' ws', genericWordLoop line fuel pos i r ws = (r', ws ++ ws', some (i + k)) ∧
        ∀ p ∈ ws', p.1 < i + k := by
  intro k
  induction k with
  | zero =>
    intro fuel pos i r ws _ hnl hfuel
    cases fuel with
    | zero => omega
    | succ f =>
      refine ⟨r, [], ?_, by simp⟩
      simp only [genericWordLoop]
      rw [if_pos (by simpa using hnl)]
      simp
  | succ k ih =>
    intro fuel pos i r ws hj hnl hfuel
    cases fuel with
    | zero => omega
    | succ f =>
      have h0 : charAt line pos ≠ '\n' := by
        have h00 := hj 0 (by omega)
        simpa using h00
      have hj' : ∀ j < k, charAt line (pos + 11 + 11 * j) ≠ '\n' := by
        intro j hjk
        have h2 := hj (j + 1) (by omega)
        have e : pos + 11 * (j + 1) = pos + 11 + 11 * j := by ring
        rw [e] at h2
        exact h2
      have hnl' : charAt line (pos + 11 + 11 * k) = '\n' := by
        have e : pos + 11 * (k + 1) = pos + 11 + 11 * k := by ring
        rw [e] at hnl
        exact hnl
      obtain ⟨r', ws', heq, hws⟩ :=
        ih f (pos + 11) (i + 1)
          (setCrcWord r i (strtoul16 (line.drop pos) % UINT32_MOD))
          (ws ++ [(i, strtoul16 (line.drop pos) % UINT32_MOD)]) hj' hnl' (by omega)
      refine ⟨r', (i, strtoul16 (line.drop pos) % UINT32_MOD) :: ws', ?_, ?_⟩
      · simp only [genericWordLoop]
        rw [if_neg h0]
        rw [heq]
        have e1 : i + 1 + k = i + (k + 1) := by omega
        rw [e1]
        simp
      · intro p hp
        rcases List.mem_cons.mp hp with hp1 | hp2
        · subst hp1; simp
        · have := hws p hp2; omega

/-- A 121-byte read result with no newline anywhere: every probed offset
holds `'z'`, so the loop never exits. -/
def zline : List Char := List.replicate 121 'z'

/-- C7 counterexample: `zline` is no longer than `MAX_LINE_LEN`, so one
`read` can return it, yet the decoder's word loop performs the store
`crc[10] = …` — index 10 is outside the ten-element
`crc[DRM_MAX_CRC_NR]` array, refuting the claim that no write at index 10
or beyond is reachable. -/
theorem C7_counterexample :
    zline.length ≤ MAX_LINE_LEN ∧
    ((10 : Nat), (0 : Nat)) ∈ (pipe_crc_init_generic blankCrc zline 12).1 ∧
    ¬ ((10 : Nat) < DRM_MAX_CRC_NR) := by decide

/-- C7 (amended): for every line whose *first newline among the probed
offsets* `10, 21, …, 10 + 11k` occurs at `k ≤ 10` (every well-formed
kernel line, including the maximal one with `k = 10`), the decoder
terminates with word count `k ≤ 10` and stores words only at indices below
10.  Lines of up to `MAX_LINE_LEN` bytes with no such newline (never
produced by the kernel ABI) escape the bound, as the counterexample shows. -/
theorem C7_thm (line : List Char) (k : Nat) (r0 : igt_crc_t) (fuel : Nat)
    (hk : k ≤ 10)
    (hnl : charAt line (10 + 11 * k) = '\n')
    (hj : ∀ j < k, charAt line (10 + 11 * j) ≠ '\n')
    (hfuel : k + 1 ≤ fuel) :
    ∃ r, (pipe_crc_init_generic r0 line fuel).2 = some r ∧ r.n_words = k ∧
      k ≤ 10 ∧ ∀ p ∈ (pipe_crc_init_generic r0 line fuel).1, p.1 < 10 := by
  simp only [pipe_crc_init_generic]
  obtain ⟨r', ws', heq, hws⟩ :=
    genericWordLoop_term line k fuel 10 0
      (if line.take 10 = List.replicate 10 'X' then { r0 with has_valid_frame := false }
       else { r0 with has_valid_frame := true, frame := strtoul16 line % UINT32_MOD })
      [] hj hnl hfuel
  rw [heq]
  refine ⟨{ r' with n_words := 0 + k }, by simp, by simp, hk, ?_⟩
  intro p hp
  simp only [List.nil_append] at hp
  have := hws p hp
  omega

/-- C7 witness: the well-formed line `"0x00000005 0xdeadbeef 0xcafebabe\n"`
(newline at probe offset `10 + 11·2`) decodes with two words, all stores in
bounds. -/
theorem C7_witness :
    ∃ r, (pipe_crc_init_generic blankCrc ("0x00000005 0xdeadbeef 0xcafebabe\n".toList) 30).2 =
        some r ∧ r.n_words = 2 ∧ 2 ≤ 10 ∧
      ∀ p ∈ (pipe_crc_init_generic blankCrc ("0x00000005 0xdeadbeef 0xcafebabe\n".toList) 30).1,
        p.1 < 10 :=
  C7_thm ("0x00000005 0xdeadbeef 0xcafebabe\n".toList) 2 blankCrc 30 (by decide)
    (by decide) (by decide) (by decide)

/-! ### Claim C2 -/

/-- C2: for a generic-ABI session whose control write succeeds, an `EINVAL`
failure of the `crtc-<pipe>/crc/data` open makes `igt_pipe_crc_do_start`
return `false` (a soft failure) and in particular not abort. -/
theorem C2_thm (s : igt_pipe_crc_t) (env : StartEnv)
    (hleg : s.is_legacy = false) (hw : env.ctl_write_ok = true)
    (hopen : env.open_crc_data = .error EINVAL) :
    (igt_pipe_crc_do_start s env).1 = .softFail ∧
    (igt_pipe_crc_do_start s env).1 ≠ .aborted := by
  simp [igt_pipe_crc_do_start, igt_pipe_crc_stop, hleg, hw, hopen]

/-- A generic-ABI session as `pipe_crc_new` builds it. -/
def sessionG : igt_pipe_crc_t :=
  { fd := 3, dir := 4, ctl_fd := 5, crc_fd := -1, flags := 0,
    is_legacy := false, pipe := 1, source := 9 }

/-- An environment where the generic data-file open fails with `EINVAL`. -/
def envEinval : StartEnv :=
  { ctl_write_ok := true, stop_write_ok := true, open_crc_data := .error EINVAL }

/-- C2 witness: the soft failure observed on a concrete session. -/
theorem C2_witness :
    (igt_pipe_crc_do_start sessionG envEinval).1 = .softFail ∧
    (igt_pipe_crc_do_start sessionG envEinval).1 ≠ .aborted :=
  C2_thm sessionG envEinval rfl rfl rfl

/-! ### Claim C8 -/

/-- `read_one_crc` on a trace whose head is a nonempty, successfully
decoding legacy line returns that line's record immediately. -/
theorem read_one_crc_good (r0 : igt_crc_t) (e : List Char)
    (rest : List (List Char)) (fuel : Nat)
    (hne : e ≠ []) (hok : (pipe_crc_init_legacy blankCrc e).2 = 6) :
    read_one_crc true r0 (e :: rest) fuel =
      some ((pipe_crc_init_legacy r0 e).1, rest) := by
  have hok' : (pipe_crc_init_legacy r0 e).2 = 6 := by
    rw [pipe_crc_init_legacy_count r0 blankCrc e]; exact hok
  have hne' : e.isEmpty = false := by
    cases e with
    | nil => exact absurd rfl hne
    | cons a l => rfl
  have hbeq : ((pipe_crc_init_legacy r0 e).2 == 6) = true := by simp [hok']
  have hlen : ¬ ((e.length : Int) = 0) := by
    cases e with
    | nil => exact absurd rfl hne
    | cons a l => simp only [List.length_cons]; omega
  simp only [read_one_crc, read_crc, hne', Bool.false_eq_true, if_false,
    pipe_crc_init_from_string, if_true, hbeq]
  rw [if_neg hlen]

/-- C8: constructing against a device where the per-CRTC generic control
file cannot be opened (and the legacy files can) yields a session with
`is_legacy = true` whose data descriptor is the pipe-specific legacy file
opened at construction time; a subsequent `collect` (which starts the
capture) reads and discards exactly two records before the externally
visible one — on a trace of three decodable frames followed by anything,
the visible record is the third frame's and the first two are consumed. -/
theorem C8_thm (env : OpenEnv) (senv : StartEnv) (fd : Int)
    (pipe source flags : Nat)
    (hdir : env.debugfs_dir ≠ -1) (hgen : env.open_generic_ctl = -1)
    (hlctl : env.open_legacy_ctl ≠ -1) (hlcrc : env.open_legacy_crc ≠ -1)
    (hw : senv.ctl_write_ok = true) (hsw : senv.stop_write_ok = true)
    (e1 e2 e3 : List Char) (rest : List (List Char)) (fuel : Nat)
    (out0 : igt_crc_t)
    (h1 : e1 ≠ []) (hok1 : (pipe_crc_init_legacy blankCrc e1).2 = 6)
    (h2 : e2 ≠ []) (hok2 : (pipe_crc_init_legacy blankCrc e2).2 = 6)
    (h3 : e3 ≠ []) (hok3 : (pipe_crc_init_legacy blankCrc e3).2 = 6) :
    ∃ s, pipe_crc_new env fd pipe source flags = some s ∧
      s.is_legacy = true ∧ s.crc_fd = env.open_legacy_crc ∧
      igt_pipe_crc_collect_crc s senv (e1 :: e2 :: e3 :: rest) fuel out0 =
        some ((pipe_crc_init_legacy out0 e3).1, s, rest) := by
  refine ⟨{ fd := fd, dir := env.debugfs_dir, ctl_fd := env.open_legacy_ctl,
            crc_fd := env.open_legacy_crc, flags := flags, is_legacy := true,
            pipe := pipe, source := source }, ?_, rfl, rfl, ?_⟩
  · simp [pipe_crc_new, hdir, hgen, hlctl, hlcrc]
  · have r1 := read_one_crc_good blankCrc e1 (e2 :: e3 :: rest) fuel h1 hok1
    have r2 := read_one_crc_good (pipe_crc_init_legacy blankCrc e1).1 e2
      (e3 :: rest) fuel h2 hok2
    have r3 := read_one_crc_good out0 e3 rest fuel h3 hok3
    simp [igt_pipe_crc_collect_crc, igt_pipe_crc_start,
      igt_pipe_crc_do_start, igt_pipe_crc_stop, hsw, hw, r1, r2, r3]

/-- Construction environment of the C8 witness: generic control open fails,
legacy control and data opens succeed. -/
def envLegacy : OpenEnv :=
  { debugfs_dir := 7, open_generic_ctl := -1, open_legacy_ctl := 8,
    open_legacy_crc := 9 }

/-- Start environment of the C8 witness: all control writes succeed. -/
def envWritesOk : StartEnv :=
  { ctl_write_ok := true, stop_write_ok := true, open_crc_data := .ok 10 }

/-- A second decodable legacy line, distinguishable from `goodLegacyLine`. -/
def goodLegacyLine2 : List Char :=
  "00000007 0000000a 0000000b 0000000c 0000000d 0000000e\n".toList

/-- C8 witness: on a concrete legacy-only device and three good frames, the
collected record is the third frame's. -/
theorem C8_witness :
    ∃ s, pipe_crc_new envLegacy 3 0 9 0 = some s ∧
      s.is_legacy = true ∧ s.crc_fd = envLegacy.open_legacy_crc ∧
      igt_pipe_crc_collect_crc s envWritesOk
          [goodLegacyLine, goodLegacyLine, goodLegacyLine2] 5 blankCrc =
        some ((pipe_crc_init_legacy blankCrc goodLegacyLine2).1, s, []) :=
  C8_thm envLegacy envWritesOk 3 0 9 0 (by decide) rfl (by decide) (by decide)
    rfl rfl goodLegacyLine goodLegacyLine goodLegacyLine2 [] 5 blankCrc
    (by decide) (by decide) (by decide) (by decide) (by decide) (by decide)

/-! ### Claim C9 -/

/-- If no index in the scanned window matches the target name, the
name-matching scan fails (either by an open failure or by exhausting the
window). -/
theorem scan_names_fail (nameOpen : Nat → Option (List Char)) (nm : List Char) :
    ∀ (k idx : Nat), (∀ j, idx ≤ j → j < idx + k → nameOpen j ≠ some nm) →
      scan_names nameOpen nm idx k = .failed := by
  intro k
  induction k with
  | zero => intro idx _; rfl
  | succ k ih =>
    intro idx hj
    cases h : nameOpen idx with
    | none => simp [scan_names, h]
    | some cmp =>
      have hcmp : ¬ (cmp = nm) := fun hc => hj idx le_rfl (by omega) (hc ▸ h)
      simp only [scan_names, h]
      rw [if_neg hcmp]
      exact ih (idx + 1) (fun j hj1 hj2 => hj j (by omega) (by omega))

/-- An environment in which debugfs is nowhere to be found and mounting it
fails. -/
def envNoDebugfs : DebugfsEnv :=
  { fstat_ok := true, is_chr := true, has_debug_dri := false,
    has_sys_debug_dri := false, mountpoint_or_mount_ok := false, minor := 0,
    name_stat_ok := true, name_open := fun _ => none, final_open := 3 }

/-- C9 counterexample: when debugfs cannot be located or mounted,
`igt_debugfs_dir` does not return the `-1` sentinel — it trips the
`igt_assert` inside `igt_debugfs_mount` and aborts. -/
theorem C9_counterexample :
    igt_debugfs_dir envNoDebugfs ≠ some (-1) ∧
    igt_debugfs_dir envNoDebugfs = none := by decide

/-- C9 (amended): `igt_debugfs_dir` returns the `-1` sentinel (without
aborting) when the device cannot be stat'ed, when it is not a character
device, and when the name-matching scan over indices 0–15 finds no
byte-for-byte match for a large minor; but when debugfs cannot be located
or mounted it aborts via an assertion instead of returning `-1`. -/
theorem C9_thm (env : DebugfsEnv) :
    (env.fstat_ok = false → igt_debugfs_dir env = some (-1)) ∧
    (env.fstat_ok = true → env.is_chr = false → igt_debugfs_dir env = some (-1)) ∧
    (env.fstat_ok = true → env.is_chr = true → env.has_debug_dri = false →
      env.has_sys_debug_dri = false → env.mountpoint_or_mount_ok = false →
      igt_debugfs_dir env = none) ∧
    (env.fstat_ok = true → env.is_chr = true → igt_debugfs_mount env ≠ none →
      env.name_stat_ok = true → 64 ≤ env.minor →
      (∀ i < 16, ∀ nm, env.name_open env.minor = some nm → env.name_open i ≠ some nm) →
      igt_debugfs_dir env = some (-1)) := by
  refine ⟨?_, ?_, ?_, ?_⟩
  · intro h; simp [igt_debugfs_dir, h]
  · intro h1 h2; simp [igt_debugfs_dir, h1, h2]
  · intro h1 h2 h3 h4 h5
    simp [igt_debugfs_dir, igt_debugfs_mount, h1, h2, h3, h4, h5]
  · intro h1 h2 hm h3 h4 hscan
    cases hmm : igt_debugfs_mount env with
    | none => exact absurd hmm hm
    | some b =>
      cases hno : env.name_open env.minor with
      | none => simp [igt_debugfs_dir, h1, h2, h3, hmm, hno, h4]
      | some nm =>
        have hs : scan_names env.name_open nm 0 16 = .failed :=
          scan_names_fail env.name_open nm 16 0
            (fun j hj1 hj2 => hscan j (by omega) nm hno)
        simp [igt_debugfs_dir, h1, h2, h3, hmm, hno, h4, hs]

/-- A device that is not a character device. -/
def envNotChr : DebugfsEnv :=
  { fstat_ok := true, is_chr := false, has_debug_dri := true,
    has_sys_debug_dri := false, mountpoint_or_mount_ok := false, minor := 0,
    name_stat_ok := true, name_open := fun _ => none, final_open := 3 }

/-- A device with a large minor whose name file matches none of the sixteen
scanned subdirectories. -/
def envNoMatch : DebugfsEnv :=
  { fstat_ok := true, is_chr := true, has_debug_dri := true,
    has_sys_debug_dri := false, mountpoint_or_mount_ok := false, minor := 64,
    name_stat_ok := true,
    name_open := fun i => if i = 64 then some ['x'] else some ['y'],
    final_open := 5 }

/-- C9 witness: the `-1` sentinel observed on a non-character device and on
a matchless name scan. -/
theorem C9_witness :
    igt_debugfs_dir envNotChr = some (-1) ∧
    igt_debugfs_dir envNoMatch = some (-1) := by
  refine ⟨(C9_thm envNotChr).2.1 rfl rfl, ?_⟩
  refine (C9_thm envNoMatch).2.2.2 rfl rfl (by decide) rfl (by decide) ?_
  intro i hi nm hnm hcon
  have hx : envNoMatch.name_open envNoMatch.minor = some ['x'] := by decide
  rw [hx] at hnm
  obtain rfl : ['x'] = nm := Option.some_inj.mp hnm
  have hne : i ≠ 64 := by omega
  have hy : envNoMatch.name_open i = some ['y'] := by
    show (fun j => if j = 64 then some ['x'] else some ['y']) i = some ['y']
    simp [hne]
  rw [hy] at hcon
  exact absurd hcon (by decide)
